import Mathlib

/-!
Shallow embedding of the messaging controller
(`modules/messages/server/controllers/messages.server.controller.js`):
inbox listing, message sending with the Thread upsert, thread retrieval
with read-marking, and the bulk markRead operation.

User and document ids are modelled as strings (MongoDB ObjectIds are
hex strings).  Database collections are lists of documents; MongoDB
update semantics (first-match update, upsert, multi) are modelled
explicitly.  Asynchronous callbacks that can complete in either order
are modelled by an explicit scheduling flag.
-/

/-- Models mongoose.Types.ObjectId.isValid (external mongoose library):
a 24-character hexadecimal string, or any 12-character string. -/
def isHexChar (c : Char) : Bool :=
  c.isDigit || (97 ≤ c.toNat && c.toNat ≤ 102) || (65 ≤ c.toNat && c.toNat ≤ 70)

def isValidObjectId (s : String) : Bool :=
  (s.length == 24 && s.data.all isHexChar) || s.length == 12

/-- Modelled from the spec: the core text-processor module is not under
src/.  Markup stripping removes every tag span: characters between a
`<` and the following `>` (inclusive) are dropped.  The Bool argument
records whether we are currently inside a tag. -/
def stripTagsAux : Bool → List Char → List Char
  | _, [] => []
  | true, c :: rest =>
    if c = '>' then stripTagsAux false rest else stripTagsAux true rest
  | false, c :: rest =>
    if c = '<' then stripTagsAux true rest else c :: stripTagsAux false rest

/-- Modelled from the spec: whitespace collapsing replaces every run of
whitespace characters by a single space.  The Bool argument records
whether the previous character was whitespace. -/
def collapseWsAux : Bool → List Char → List Char
  | _, [] => []
  | prevWs, c :: rest =>
    if c.isWhitespace then
      if prevWs then collapseWsAux true rest
      else ' ' :: collapseWsAux true rest
    else c :: collapseWsAux false rest

/-- Modelled from the spec: textProcessor.plainText strips markup and
collapses whitespace (the source file of textProcessor is not under src/). -/
def plainTextChars (l : List Char) : List Char :=
  collapseWsAux false (stripTagsAux false l)

def plainText (s : String) : String :=
  String.mk (plainTextChars s.data)

/-- Modelled from the spec: textProcessor.isEmpty holds when the content
is empty after markup stripping (whitespace-only text counts as empty). -/
def textProcessorIsEmpty (s : String) : Bool :=
  (plainTextChars s.data).all Char.isWhitespace

/-- A Message document. -/
structure Message where
  _id : String
  userFrom : String
  userTo : String
  content : String
  read : Bool
  notified : Bool
  created : Nat
deriving Repr, DecidableEq

/-- A Thread document: denormalized pointer to the latest message of a
user pair. -/
structure Thread where
  _id : String
  userFrom : String
  userTo : String
  message : String
  read : Bool
  updated : Nat
deriving Repr, DecidableEq

/-- The database state visible to this module. -/
structure DB where
  messages : List Message
  threads : List Thread
deriving Repr, DecidableEq

/-- An HTTP response produced by a controller: a JSON message body,
an empty 200, or an error status with a message. -/
inductive Resp where
  | json (m : Message)
  | empty200
  | err (status : Nat) (msg : String)
deriving Repr, DecidableEq

/-! ### Send (exports.send) -/

/-- The request body of a send: userTo and content, plus fields a
client might try to forge (userFrom, read, notified). -/
structure SendBody where
  userTo : String
  content : String
  userFrom : Option String := none
  read : Option Bool := none
  notified : Option Bool := none
deriving Repr, DecidableEq

/-- Environment of one send request: injected database errors for the
three asynchronous operations, and the completion order of the two
callbacks that race after a successful save (Thread.update vs
message.populate). -/
structure SendEnv where
  saveErr : Option String := none
  upsertErr : Option String := none
  populateErr : Option String := none
  upsertCbFirst : Bool := false
deriving Repr, DecidableEq

/-- `new Message(req.body)`: the document as built from the client body
(mongoose defaults for absent fields). -/
def newMessageFromBody (body : SendBody) (mid : String) (now : Nat) : Message :=
  { _id := mid
    userFrom := body.userFrom.getD ""
    userTo := body.userTo
    content := body.content
    read := body.read.getD false
    notified := body.notified.getD false
    created := now }

/-- The message exports.send persists: built from the body, content
passed through textProcessor.html (the sanitizer, kept abstract as
`htmlFn`), then userFrom, read and notified overwritten by the server. -/
def buildMessage (htmlFn : String → String) (sender : String) (body : SendBody)
    (mid : String) (now : Nat) : Message :=
  let m0 := newMessageFromBody body mid now
  let m1 := { m0 with content := htmlFn m0.content }
  { m1 with userFrom := sender, read := false, notified := false }

/-- The upsert query of exports.send: matches a thread whose user pair
equals the new thread data's pair, in either field order. -/
def upsertQueryMatch (d t : Thread) : Bool :=
  (t.userTo == d.userTo && t.userFrom == d.userFrom) ||
  (t.userTo == d.userFrom && t.userFrom == d.userTo)

/-- Thread.update(query, upsertData, upsert: true): MongoDB updates the
first document matching the query (multi defaults to false), setting
every field of upsertData (mongoose wraps the plain update object in a
set operation) and keeping the existing _id; if no document matches it
inserts the new data. -/
def threadUpsert (threads : List Thread) (d : Thread) : List Thread :=
  match threads with
  | [] => [d]
  | t :: ts =>
    if upsertQueryMatch d t then { d with _id := t._id } :: ts
    else t :: threadUpsert ts d

/-- exports.send.  Arguments: the content sanitizer, the authenticated
sender id, the request body, the database, the error/scheduling
environment, fresh ids for the new message and thread, and the clock.
Returns the list of response attempts in completion order (the client
sees the first one; Express rejects later ones) and the new database. -/
def send (htmlFn : String → String) (sender : String) (body : SendBody)
    (db : DB) (env : SendEnv) (mid tid : String) (now : Nat) :
    List Resp × DB :=
  if !(isValidObjectId body.userTo) then
    ([Resp.err 400 "invalid-id"], db)
  else if sender = body.userTo then
    ([Resp.err 403 "Recepient cannot be currently authenticated user."], db)
  else if textProcessorIsEmpty body.content then
    ([Resp.err 400 "Please write a message."], db)
  else
    let message := buildMessage htmlFn sender body mid now
    match env.saveErr with
    | some e => ([Resp.err 400 e], db)
    | none =>
      let db1 : DB := { db with messages := db.messages ++ [message] }
      let upsertData : Thread :=
        { _id := tid
          userFrom := message.userFrom
          userTo := message.userTo
          message := message._id
          read := false
          updated := now }
      let upsertOut : List Resp × DB :=
        match env.upsertErr with
        | some e => ([Resp.err 400 e], db1)
        | none => ([], { db1 with threads := threadUpsert db1.threads upsertData })
      let populateResps : List Resp :=
        match env.populateErr with
        | some e => [Resp.err 400 e]
        | none => [Resp.json message]
      (if env.upsertCbFirst then upsertOut.1 ++ populateResps
       else populateResps ++ upsertOut.1,
       upsertOut.2)

/-! ### Inbox (exports.inbox) -/

/-- A thread as returned by the inbox query, with the latest message's
content populated. -/
structure PopulatedThread where
  userFrom : String
  userTo : String
  content : String
  read : Bool
deriving Repr, DecidableEq

/-- A thread summary sent to the client: the raw content field is
either kept (some) or deleted (none), and an excerpt is added. -/
structure ThreadSummary where
  userFrom : String
  userTo : String
  content? : Option String
  excerpt : String
  read : Bool
deriving Repr, DecidableEq

/-- The excerpt derivation of exports.inbox:
plainText(content, true).substring(0, 100) + " …". -/
def excerptOf (content : String) : String :=
  String.mk ((plainTextChars content.data).take 100 ++ [' ', '…'])

/-- The per-thread transformation of exports.inbox: build the excerpt,
delete the raw content, and force read = true when the latest message
was sent by the requesting user. -/
def inboxSummary (u : String) (t : PopulatedThread) : ThreadSummary :=
  { userFrom := t.userFrom
    userTo := t.userTo
    content? := none
    excerpt := excerptOf t.content
    read := if t.userFrom == u then true else t.read }

/-- exports.inbox on the list of threads returned by the paginated
query for requesting user u. -/
def inbox (u : String) (threads : List PopulatedThread) : List ThreadSummary :=
  threads.map (inboxSummary u)

/-! ### Thread retrieval (exports.threadByUser) -/

/-- Result of the threadByUser middleware: an error response, or
control handed to the next stage with req.messages attached. -/
inductive ThreadStep where
  | err (status : Nat) (msg : String)
  | next (messages : List Message)
deriving Repr, DecidableEq

/-- The message query of threadByUser: all messages between the two
users in either direction. -/
def messagesBetween (db : DB) (a b : String) : List Message :=
  db.messages.filter (fun m =>
    (m.userFrom == a && m.userTo == b) || (m.userTo == a && m.userFrom == b))

def insertByCreatedDesc (m : Message) : List Message → List Message
  | [] => [m]
  | x :: xs =>
    if x.created ≤ m.created then m :: x :: xs
    else x :: insertByCreatedDesc m xs

/-- sortBy: -created (newest first). -/
def sortByCreatedDesc : List Message → List Message
  | [] => []
  | x :: xs => insertByCreatedDesc x (sortByCreatedDesc xs)

/-- Thread.update({userTo: u, userFrom: other}, {read: true}, {multi: false}):
sets read on the first thread stored in exactly that field order;
every other document is untouched. -/
def markThreadReadFirst (threads : List Thread) (u other : String) : List Thread :=
  match threads with
  | [] => []
  | t :: ts =>
    if t.userTo == u && t.userFrom == other then { t with read := true } :: ts
    else t :: markThreadReadFirst ts u other

/-- The page of messages threadByUser retrieves and sanitizes:
paginate (skip (page-1)*limit, take limit) the newest-first messages
between the two users, then sanitize each content. -/
def pageOf (sanitizeFn : String → String) (u userId : String) (db : DB)
    (page limit : Nat) : List Message :=
  (((sortByCreatedDesc (messagesBetween db u userId)).drop ((page - 1) * limit)).take
      limit).map (fun m => { m with content := sanitizeFn m.content })

/-- exports.threadByUser: authentication check, id validation, message
page retrieval and sanitization, then read-marking driven by the most
recent message of the retrieved page. -/
def threadByUser (sanitizeFn : String → String) (reqUser : Option String)
    (userId : String) (db : DB) (page limit : Nat) : ThreadStep × DB :=
  match reqUser with
  | none => (ThreadStep.err 403 "forbidden", db)
  | some u =>
    if (userId == "") || !(isValidObjectId userId) then
      (ThreadStep.err 400 "invalid-id", db)
    else
      let cleaned := pageOf sanitizeFn u userId db page limit
      match cleaned.head? with
      | some recent =>
        if recent.userTo == u then
          (ThreadStep.next cleaned,
           { db with threads := markThreadReadFirst db.threads u userId })
        else (ThreadStep.next cleaned, db)
      | none => (ThreadStep.next cleaned, db)

/-! ### Mark messages read (exports.markRead) -/

/-- One disjunct of the markRead query: _id equals the submitted id and
userTo is the requesting user. -/
def markReadQueryMatch (u : String) (ids : List String) (m : Message) : Bool :=
  ids.any (fun i => m._id == i && m.userTo == u)

/-- exports.markRead.  The controller builds one disjunct per submitted
id and runs a multi update setting read = true.  MongoDB rejects an
empty disjunction ("$or must be a nonempty array"), which surfaces as a
database error and a 400 response; otherwise every matching message is
updated and an empty 200 is returned. -/
def markRead (u : String) (ids : List String) (db : DB) : Resp × DB :=
  if ids.isEmpty then
    (Resp.err 400 "or must be a nonempty array", db)
  else
    (Resp.empty200,
     { db with
        messages := db.messages.map (fun m =>
          if markReadQueryMatch u ids m then { m with read := true } else m) })

/-! ### Shared concrete test data -/

def uidA : String := "aaaaaaaaaaaaaaaaaaaaaaaa"

def uidB : String := "bbbbbbbbbbbbbbbbbbbbbbbb"

/-- A thread-pair membership predicate: the thread is the one of the
unordered pair of users a and b (either field order). -/
def pairMatch (a b : String) (t : Thread) : Bool :=
  (t.userTo == b && t.userFrom == a) || (t.userTo == a && t.userFrom == b)

/-- Number of Thread documents for the unordered pair of a and b. -/
def pairCount (threads : List Thread) (a b : String) : Nat :=
  threads.countP (pairMatch a b)

def dbEmpty : DB := { messages := [], threads := [] }

def helloBody : SendBody := { userTo := uidB, content := "Hello there" }

def envUpsertFail : SendEnv :=
  { upsertErr := some "database failure", upsertCbFirst := true }

def forgedBody : SendBody :=
  { userTo := uidB
    content := "Hello"
    userFrom := some "evil"
    read := some true
    notified := some true }

def msgToB : Message :=
  { _id := "cccccccccccccccccccccccc"
    userFrom := uidA
    userTo := uidB
    content := "Hi"
    read := false
    notified := false
    created := 1 }

def threadBA : Thread :=
  { _id := "tttttttttttttttttttttttt"
    userFrom := uidB
    userTo := uidA
    message := "x"
    read := false
    updated := 1 }

def dbWithBA : DB := { messages := [], threads := [threadBA] }

/-- The thread surviving the upsert in the C9 witness scenario: the old
B-to-A thread of dbWithBA, overwritten with the new A-to-B snapshot
(its _id is kept). -/
def threadReplaced : Thread :=
  { _id := "tttttttttttttttttttttttt"
    userFrom := uidA
    userTo := uidB
    message := "m1"
    read := false
    updated := 9 }

def msgBA1 : Message :=
  { _id := "dddddddddddddddddddddddd"
    userFrom := uidB
    userTo := uidA
    content := "hello"
    read := false
    notified := false
    created := 4 }

def threadBAunread : Thread :=
  { _id := "eeeeeeeeeeeeeeeeeeeeeeee"
    userFrom := uidB
    userTo := uidA
    message := "dddddddddddddddddddddddd"
    read := false
    updated := 4 }

def dbC4w : DB := { messages := [msgBA1], threads := [threadBAunread] }

def msgBAold : Message :=
  { _id := "f1f1f1f1f1f1f1f1f1f1f1f1"
    userFrom := uidB
    userTo := uidA
    content := "oldest"
    read := true
    notified := true
    created := 1 }

def msgABmid : Message :=
  { _id := "f2f2f2f2f2f2f2f2f2f2f2f2"
    userFrom := uidA
    userTo := uidB
    content := "middle"
    read := true
    notified := true
    created := 2 }

def msgABnew : Message :=
  { _id := "f3f3f3f3f3f3f3f3f3f3f3f3"
    userFrom := uidA
    userTo := uidB
    content := "newest"
    read := false
    notified := false
    created := 3 }

/-- A reachable state: A sent the latest message to B, so the Thread
orientation tracks that message (userFrom = A, userTo = B, unread). -/
def threadABlatest : Thread :=
  { _id := "f4f4f4f4f4f4f4f4f4f4f4f4"
    userFrom := uidA
    userTo := uidB
    message := "f3f3f3f3f3f3f3f3f3f3f3f3"
    read := false
    updated := 3 }

def dbC4cex : DB :=
  { messages := [msgBAold, msgABmid, msgABnew], threads := [threadABlatest] }

def ptHi : PopulatedThread :=
  { userFrom := uidA, userTo := uidB, content := "<b>Hi</b>", read := false }

def longContent : String := String.mk (List.replicate 105 'a')

def ptLong : PopulatedThread :=
  { userFrom := uidA, userTo := uidB, content := longContent, read := false }

/-! ### Theorems -/

/-- C7: exports.send validates in a fixed order and the first failing
check determines the response: a malformed recipient id yields 400
(invalid-id) before any other check; a well-formed recipient id equal
to the sender yields 403 before the content check; content empty after
markup stripping yields 400 "Please write a message."; in all three
cases the database (hence the Message collection) is unchanged. -/
theorem send_validation_order (htmlFn : String → String) (sender : String)
    (body : SendBody) (db : DB) (env : SendEnv) (mid tid : String) (now : Nat) :
    (isValidObjectId body.userTo = false →
      send htmlFn sender body db env mid tid now = ([Resp.err 400 "invalid-id"], db)) ∧
    (isValidObjectId body.userTo = true → sender = body.userTo →
      send htmlFn sender body db env mid tid now
        = ([Resp.err 403 "Recepient cannot be currently authenticated user."], db)) ∧
    (isValidObjectId body.userTo = true → sender ≠ body.userTo →
      textProcessorIsEmpty body.content = true →
      send htmlFn sender body db env mid tid now
        = ([Resp.err 400 "Please write a message."], db)) := by
  refine ⟨fun h1 => ?_, fun h1 h2 => ?_, fun h1 h2 h3 => ?_⟩
  · simp [send, h1]
  · simp [send, h1, h2]
  · simp [send, h1, h2, h3]

/-- Witness for send_validation_order: a malformed id is rejected with
400 even alongside empty content; a self-send with a well-formed id is
rejected with 403 even with empty content; markup-only content is
rejected with 400 "Please write a message.". -/
theorem send_validation_order_witness :
    (isValidObjectId "not-an-id" = false ∧
      send (fun c => c) uidA { userTo := "not-an-id", content := "" } dbEmpty {} "m" "t" 0
        = ([Resp.err 400 "invalid-id"], dbEmpty)) ∧
    (send (fun c => c) uidA { userTo := uidA, content := "" } dbEmpty {} "m" "t" 0
        = ([Resp.err 403 "Recepient cannot be currently authenticated user."], dbEmpty)) ∧
    (send (fun c => c) uidA { userTo := uidB, content := "<p> </p>" } dbEmpty {} "m" "t" 0
        = ([Resp.err 400 "Please write a message."], dbEmpty)) :=
  ⟨⟨by decide,
    (send_validation_order (fun c => c) uidA { userTo := "not-an-id", content := "" }
        dbEmpty {} "m" "t" 0).1 (by decide)⟩,
   (send_validation_order (fun c => c) uidA { userTo := uidA, content := "" }
        dbEmpty {} "m" "t" 0).2.1 (by decide) rfl,
   (send_validation_order (fun c => c) uidA { userTo := uidB, content := "<p> </p>" }
        dbEmpty {} "m" "t" 0).2.2 (by decide) (by decide) (by decide)⟩

/-- C5: a send whose well-formed recipient id equals the authenticated
sender fails with 403 and persists no Message (the database is returned
unchanged). -/
theorem send_self_rejected_403 (htmlFn : String → String) (sender : String)
    (body : SendBody) (db : DB) (env : SendEnv) (mid tid : String) (now : Nat)
    (hvalid : isValidObjectId body.userTo = true)
    (hself : sender = body.userTo) :
    send htmlFn sender body db env mid tid now
      = ([Resp.err 403 "Recepient cannot be currently authenticated user."], db)
    ∧ (send htmlFn sender body db env mid tid now).2.messages = db.messages := by
  have h : send htmlFn sender body db env mid tid now
      = ([Resp.err 403 "Recepient cannot be currently authenticated user."], db) := by
    simp [send, hvalid, hself]
  exact ⟨h, by rw [h]⟩

/-- Witness for send_self_rejected_403 at a concrete self-send. -/
theorem send_self_rejected_403_witness :
    isValidObjectId uidA = true ∧
    send (fun c => c) uidA { userTo := uidA, content := "Hi" } dbEmpty {} "m" "t" 0
      = ([Resp.err 403 "Recepient cannot be currently authenticated user."], dbEmpty) :=
  ⟨by decide,
   (send_self_rejected_403 (fun c => c) uidA { userTo := uidA, content := "Hi" }
      dbEmpty {} "m" "t" 0 (by decide) rfl).1⟩

/-- C10: a markRead request with an empty id array builds an empty
disjunction, which MongoDB rejects, so the request fails with 400 and
the database (hence every message's read flag) is unchanged; it does
not succeed with 200. -/
theorem markRead_empty_ids_400 (u : String) (db : DB) :
    markRead u [] db = (Resp.err 400 "or must be a nonempty array", db) := rfl

/-- C6: markRead never mutates a message whose recipient is not the
requesting user, even when its id is in the submitted array: such a
message is unchanged at its position in the collection. -/
theorem markRead_frame (u : String) (ids : List String) (db : DB) (i : Nat) (m : Message)
    (hm : db.messages[i]? = some m) (hne : m.userTo ≠ u) :
    (markRead u ids db).2.messages[i]? = some m := by
  have hq : markReadQueryMatch u ids m = false := by
    simp only [markReadQueryMatch, List.any_eq_false, Bool.and_eq_true, beq_iff_eq,
      not_and]
    intro x _ _
    exact fun h => hne h
  unfold markRead
  by_cases hids : ids.isEmpty
  · simp [hids, hm]
  · simp [hids, List.getElem?_map, hm, hq]

/-- Witness for markRead_frame: user A submits the id of a message
addressed to B; the message is unchanged. -/
theorem markRead_frame_witness :
    ({ messages := [msgToB], threads := [] } : DB).messages[0]? = some msgToB
    ∧ msgToB.userTo ≠ uidA
    ∧ (markRead uidA [msgToB._id]
        { messages := [msgToB], threads := [] }).2.messages[0]? = some msgToB :=
  ⟨rfl, by decide,
   markRead_frame uidA [msgToB._id] { messages := [msgToB], threads := [] } 0 msgToB
     rfl (by decide)⟩

/-- C8: a successful send persists exactly the server-built message,
whose userFrom is the authenticated sender and whose read and notified
flags are false, regardless of any userFrom, read or notified values in
the request body (the body is universally quantified). -/
theorem send_fixes_sender_and_flags (htmlFn : String → String) (sender : String)
    (body : SendBody) (db : DB) (env : SendEnv) (mid tid : String) (now : Nat)
    (hvalid : isValidObjectId body.userTo = true)
    (hself : sender ≠ body.userTo)
    (hcontent : textProcessorIsEmpty body.content = false)
    (hsave : env.saveErr = none) :
    (send htmlFn sender body db env mid tid now).2.messages
      = db.messages ++ [buildMessage htmlFn sender body mid now]
    ∧ (buildMessage htmlFn sender body mid now).userFrom = sender
    ∧ (buildMessage htmlFn sender body mid now).read = false
    ∧ (buildMessage htmlFn sender body mid now).notified = false := by
  refine ⟨?_, rfl, rfl, rfl⟩
  cases henv : env.upsertErr <;> simp [send, hvalid, hself, hcontent, hsave, henv]

/-- Witness for send_fixes_sender_and_flags: a body forging userFrom,
read and notified still yields a message from the real sender with both
flags false. -/
theorem send_fixes_sender_and_flags_witness :
    isValidObjectId uidB = true
    ∧ (send (fun c => c) uidA forgedBody dbEmpty {} "m" "t" 7).2.messages
        = dbEmpty.messages ++ [buildMessage (fun c => c) uidA forgedBody "m" 7]
    ∧ (buildMessage (fun c => c) uidA forgedBody "m" 7).userFrom = uidA
    ∧ (buildMessage (fun c => c) uidA forgedBody "m" 7).read = false
    ∧ (buildMessage (fun c => c) uidA forgedBody "m" 7).notified = false := by
  have h := send_fixes_sender_and_flags (fun c => c) uidA forgedBody dbEmpty {} "m" "t" 7
      (by decide) (by decide) (by decide) rfl
  exact ⟨by decide, h.1, h.2.1, h.2.2.1, h.2.2.2⟩

/-- C1 (amended): when the Thread upsert fails after the Message was
saved, the handler attempts a 400 error response instead of merely
logging; the Message stays persisted either way, and the sender
receives the success response exactly when the populate callback's
response completes first. -/
theorem send_upsert_failure_race (htmlFn : String → String) (sender : String)
    (body : SendBody) (db : DB) (env : SendEnv) (mid tid : String) (now : Nat)
    (e : String)
    (hvalid : isValidObjectId body.userTo = true)
    (hself : sender ≠ body.userTo)
    (hcontent : textProcessorIsEmpty body.content = false)
    (hsave : env.saveErr = none)
    (hup : env.upsertErr = some e)
    (hpop : env.populateErr = none) :
    (send htmlFn sender body db env mid tid now).2.messages
      = db.messages ++ [buildMessage htmlFn sender body mid now]
    ∧ (env.upsertCbFirst = true →
        (send htmlFn sender body db env mid tid now).1.head?
          = some (Resp.err 400 e))
    ∧ (env.upsertCbFirst = false →
        (send htmlFn sender body db env mid tid now).1.head?
          = some (Resp.json (buildMessage htmlFn sender body mid now))) := by
  refine ⟨?_, fun hsched => ?_, fun hsched => ?_⟩
  · simp [send, hvalid, hself, hcontent, hsave, hup, hpop]
  · simp [send, hvalid, hself, hcontent, hsave, hup, hpop, hsched]
  · simp [send, hvalid, hself, hcontent, hsave, hup, hpop, hsched]

/-- Witness for send_upsert_failure_race: with the populate callback
completing first, the client receives the success JSON even though the
upsert failed. -/
theorem send_upsert_failure_race_witness :
    isValidObjectId uidB = true
    ∧ (send (fun c => c) uidA helloBody dbEmpty { upsertErr := some "database failure" }
          "m0" "t0" 5).1.head?
        = some (Resp.json (buildMessage (fun c => c) uidA helloBody "m0" 5)) := by
  have h := send_upsert_failure_race (fun c => c) uidA helloBody dbEmpty
      { upsertErr := some "database failure" } "m0" "t0" 5 "database failure"
      (by decide) (by decide) (by decide) rfl rfl rfl
  exact ⟨by decide, h.2.2 rfl⟩

/-- C1 is false as stated: with the upsert failing and its callback
completing before the populate callback, the first (hence effective)
response to the sender is the 400 error caused by the upsert failure,
even though the Message was persisted. -/
theorem send_upsert_failure_cex :
    (send (fun c => c) uidA helloBody dbEmpty envUpsertFail "m0" "t0" 5).2.messages.length = 1
    ∧ (send (fun c => c) uidA helloBody dbEmpty envUpsertFail "m0" "t0" 5).1.head?
        = some (Resp.err 400 "database failure") := by
  constructor
  · decide
  · decide

theorem upsertQueryMatch_eq_pairMatch (d t : Thread) :
    upsertQueryMatch d t = pairMatch d.userFrom d.userTo t := rfl

theorem threadUpsert_pairCount (threads : List Thread) (d : Thread)
    (h : pairCount threads d.userFrom d.userTo ≤ 1) :
    pairCount (threadUpsert threads d) d.userFrom d.userTo = 1 := by
  induction threads with
  | nil =>
    simp [threadUpsert, pairCount, pairMatch]
  | cons t ts ih =>
    by_cases hm : upsertQueryMatch d t = true
    · have hmp : pairMatch d.userFrom d.userTo t = true := by
        rw [← upsertQueryMatch_eq_pairMatch]; exact hm
      have hts : ts.countP (pairMatch d.userFrom d.userTo) = 0 := by
        simp only [pairCount, List.countP_cons, hmp, if_true] at h
        omega
      simp [threadUpsert, hm, pairCount, List.countP_cons, hts, pairMatch]
    · have hmp : pairMatch d.userFrom d.userTo t = false := by
        rw [← upsertQueryMatch_eq_pairMatch]
        simpa using hm
      have hts : pairCount ts d.userFrom d.userTo ≤ 1 := by
        simp only [pairCount, List.countP_cons, hmp, if_false] at h
        simpa [pairCount] using h
      have hih := ih hts
      simp only [pairCount] at hih
      simp [threadUpsert, hm, pairCount, List.countP_cons, hmp, hih]

theorem threadUpsert_fields (threads : List Thread) (d : Thread)
    (h : pairCount threads d.userFrom d.userTo ≤ 1) :
    ∀ t ∈ threadUpsert threads d, pairMatch d.userFrom d.userTo t = true →
      t.userFrom = d.userFrom ∧ t.userTo = d.userTo ∧ t.message = d.message
        ∧ t.read = d.read := by
  induction threads with
  | nil =>
    intro t ht _
    simp [threadUpsert] at ht
    subst ht
    exact ⟨rfl, rfl, rfl, rfl⟩
  | cons t0 ts ih =>
    intro t ht hp
    by_cases hm : upsertQueryMatch d t0 = true
    · have hmp : pairMatch d.userFrom d.userTo t0 = true := by
        rw [← upsertQueryMatch_eq_pairMatch]; exact hm
      simp only [threadUpsert, hm, if_true, List.mem_cons] at ht
      rcases ht with h1 | h2
      · subst h1
        exact ⟨rfl, rfl, rfl, rfl⟩
      · exfalso
        have hts : ts.countP (pairMatch d.userFrom d.userTo) = 0 := by
          simp only [pairCount, List.countP_cons, hmp, if_true] at h
          omega
        exact (List.countP_eq_zero.mp hts t h2) hp
    · have hmp : pairMatch d.userFrom d.userTo t0 = false := by
        rw [← upsertQueryMatch_eq_pairMatch]
        simpa using hm
      have hmb : upsertQueryMatch d t0 = false := by simpa using hm
      simp only [threadUpsert, hmb, Bool.false_eq_true, if_false, List.mem_cons] at ht
      rcases ht with h1 | h2
      · exfalso
        subst h1
        rw [hp] at hmp
        exact absurd hmp (by decide)
      · have hts : pairCount ts d.userFrom d.userTo ≤ 1 := by
          simp only [pairCount, List.countP_cons, hmp, if_false] at h
          simpa [pairCount] using h
        exact ih hts t h2 hp

/-- C3: for every valid send (any direction, with or without a
pre-existing Thread in either field order), assuming the invariant that
at most one Thread exists for the pair beforehand, exactly one Thread
document exists for the unordered user pair after the send's upsert
completes. -/
theorem send_thread_pair_unique (htmlFn : String → String) (sender : String)
    (body : SendBody) (db : DB) (env : SendEnv) (mid tid : String) (now : Nat)
    (hvalid : isValidObjectId body.userTo = true)
    (hself : sender ≠ body.userTo)
    (hcontent : textProcessorIsEmpty body.content = false)
    (hsave : env.saveErr = none)
    (hup : env.upsertErr = none)
    (hpair : pairCount db.threads sender body.userTo ≤ 1) :
    pairCount (send htmlFn sender body db env mid tid now).2.threads
      sender body.userTo = 1 := by
  simp [send, hvalid, hself, hcontent, hsave, hup, buildMessage, newMessageFromBody]
  exact threadUpsert_pairCount db.threads
    { _id := tid, userFrom := sender, userTo := body.userTo, message := mid,
      read := false, updated := now } hpair

/-- Witness for send_thread_pair_unique: B previously messaged A (the
Thread is stored B-to-A); A now sends to B and exactly one Thread for
the pair remains. -/
theorem send_thread_pair_unique_witness :
    pairCount dbWithBA.threads uidA uidB ≤ 1
    ∧ isValidObjectId uidB = true
    ∧ pairCount (send (fun c => c) uidA helloBody dbWithBA {} "m1" "t1" 9).2.threads
        uidA uidB = 1 :=
  ⟨by decide, by decide,
   send_thread_pair_unique (fun c => c) uidA helloBody dbWithBA {} "m1" "t1" 9
     (by decide) (by decide) (by decide) rfl rfl (by decide)⟩

/-- C9: after a valid send's upsert, the Thread for the pair has the
latest message's orientation (userFrom = sender, userTo = recipient),
points at the new message, and is unread; consequently it matches the
single-orientation read-marking query of threadByUser issued by the
recipient (userTo = recipient, userFrom = sender). -/
theorem send_thread_fields_track_latest (htmlFn : String → String) (sender : String)
    (body : SendBody) (db : DB) (env : SendEnv) (mid tid : String) (now : Nat)
    (hvalid : isValidObjectId body.userTo = true)
    (hself : sender ≠ body.userTo)
    (hcontent : textProcessorIsEmpty body.content = false)
    (hsave : env.saveErr = none)
    (hup : env.upsertErr = none)
    (hpair : pairCount db.threads sender body.userTo ≤ 1) :
    ∀ t ∈ (send htmlFn sender body db env mid tid now).2.threads,
      pairMatch sender body.userTo t = true →
      (t.userFrom = sender ∧ t.userTo = body.userTo ∧ t.message = mid ∧ t.read = false)
      ∧ (t.userTo == body.userTo && t.userFrom == sender) = true := by
  intro t ht hp
  simp [send, hvalid, hself, hcontent, hsave, hup, buildMessage, newMessageFromBody] at ht
  have hf := threadUpsert_fields db.threads
    { _id := tid, userFrom := sender, userTo := body.userTo, message := mid,
      read := false, updated := now } hpair t ht hp
  refine ⟨hf, ?_⟩
  simp [hf.1, hf.2.1]

/-- Witness for send_thread_fields_track_latest: after A sends to B over
an old B-to-A thread, the surviving thread is A-to-B, unread, points at
the new message, and matches B's read-marking query. -/
theorem send_thread_fields_track_latest_witness :
    pairCount dbWithBA.threads uidA uidB ≤ 1
    ∧ threadReplaced ∈ (send (fun c => c) uidA helloBody dbWithBA {} "m1" "t1" 9).2.threads
    ∧ (threadReplaced.userFrom = uidA ∧ threadReplaced.userTo = uidB
        ∧ threadReplaced.message = "m1" ∧ threadReplaced.read = false)
    ∧ (threadReplaced.userTo == uidB && threadReplaced.userFrom == uidA) = true := by
  have h := send_thread_fields_track_latest (fun c => c) uidA helloBody dbWithBA {}
    "m1" "t1" 9 (by decide) (by decide) (by decide) rfl rfl (by decide)
    threadReplaced (by decide) (by decide)
  exact ⟨by decide, by decide, h.1, h.2⟩

theorem isValidObjectId_ne_empty (s : String) (h : isValidObjectId s = true) :
    (s == "") = false := by
  by_cases hs : s = ""
  · subst hs
    exact absurd h (by decide)
  · simp [hs]

theorem markThreadReadFirst_frame (u other : String) :
    ∀ (threads : List Thread) (i : Nat) (t : Thread),
      threads[i]? = some t → ¬ (t.userTo = u ∧ t.userFrom = other) →
      (markThreadReadFirst threads u other)[i]? = some t := by
  intro threads
  induction threads with
  | nil =>
    intro i t ht _
    simp at ht
  | cons t0 ts ih =>
    intro i t ht hno
    by_cases hm : (t0.userTo == u && t0.userFrom == other) = true
    · cases i with
      | zero =>
        simp only [List.getElem?_cons_zero, Option.some_inj] at ht
        subst ht
        exact absurd (by simpa [Bool.and_eq_true, beq_iff_eq] using hm) hno
      | succ n =>
        simp only [List.getElem?_cons_succ] at ht
        simpa [markThreadReadFirst, hm] using ht
    · have hmb : (t0.userTo == u && t0.userFrom == other) = false := by
        simpa using hm
      cases i with
      | zero =>
        simp only [List.getElem?_cons_zero] at ht
        simpa [markThreadReadFirst, hmb] using ht
      | succ n =>
        simp only [List.getElem?_cons_succ] at ht
        simp only [markThreadReadFirst, hmb, Bool.false_eq_true, if_false,
          List.getElem?_cons_succ]
        exact ih n t ht hno

theorem markThreadReadFirst_sets_first (u other : String) :
    ∀ (threads : List Thread) (i : Nat) (t : Thread),
      threads[i]? = some t → t.userTo = u → t.userFrom = other →
      (∀ j s, j < i → threads[j]? = some s → ¬ (s.userTo = u ∧ s.userFrom = other)) →
      (markThreadReadFirst threads u other)[i]? = some { t with read := true } := by
  intro threads
  induction threads with
  | nil =>
    intro i t ht
    simp at ht
  | cons t0 ts ih =>
    intro i t ht h1 h2 hbefore
    cases i with
    | zero =>
      simp only [List.getElem?_cons_zero, Option.some_inj] at ht
      subst ht
      have hm : (t0.userTo == u && t0.userFrom == other) = true := by
        simp [h1, h2]
      simp [markThreadReadFirst, hm]
    | succ n =>
      have hno := hbefore 0 t0 (Nat.succ_pos n) (by simp)
      have hmb : (t0.userTo == u && t0.userFrom == other) = false := by
        by_cases hbu : t0.userTo = u
        · by_cases hbf : t0.userFrom = other
          · exact absurd ⟨hbu, hbf⟩ hno
          · simp [hbf]
        · simp [hbu]
      simp only [List.getElem?_cons_succ] at ht
      simp only [markThreadReadFirst, hmb, Bool.false_eq_true, if_false,
        List.getElem?_cons_succ]
      exact ih n t ht h1 h2 (fun j s hj hs =>
        hbefore (j + 1) s (Nat.succ_lt_succ hj) (by simpa using hs))

/-- C4 (amended): for an authenticated thread retrieval with a
well-formed other-party id, the middleware hands the sanitized page to
the next stage; when the most recent message of the retrieved page has
the requesting user as recipient, the only write performed is a
single-document update against the Thread stored with userTo =
requester and userFrom = other party (the first such document gets
read = true; any document not in that exact orientation is unchanged,
so the Thread's read flag only becomes true when such a document
exists, e.g. on the first page where the orientation tracks the latest
message); when the requester sent the page's most recent message, or
the page is empty, no Thread write is performed at all. -/
theorem threadByUser_read_marking (sanitizeFn : String → String) (u userId : String)
    (db : DB) (page limit : Nat)
    (hval : isValidObjectId userId = true) :
    ((threadByUser sanitizeFn (some u) userId db page limit).1
        = ThreadStep.next (pageOf sanitizeFn u userId db page limit))
    ∧ (∀ recent, (pageOf sanitizeFn u userId db page limit).head? = some recent →
        recent.userTo = u →
        (threadByUser sanitizeFn (some u) userId db page limit).2
          = { db with threads := markThreadReadFirst db.threads u userId })
    ∧ (∀ recent, (pageOf sanitizeFn u userId db page limit).head? = some recent →
        recent.userTo ≠ u →
        (threadByUser sanitizeFn (some u) userId db page limit).2 = db)
    ∧ (pageOf sanitizeFn u userId db page limit = [] →
        (threadByUser sanitizeFn (some u) userId db page limit).2 = db)
    ∧ (∀ (i : Nat) (t : Thread), db.threads[i]? = some t →
        ¬ (t.userTo = u ∧ t.userFrom = userId) →
        (markThreadReadFirst db.threads u userId)[i]? = some t)
    ∧ (∀ (i : Nat) (t : Thread), db.threads[i]? = some t →
        t.userTo = u → t.userFrom = userId →
        (∀ (j : Nat) (s : Thread), j < i → db.threads[j]? = some s →
          ¬ (s.userTo = u ∧ s.userFrom = userId)) →
        (markThreadReadFirst db.threads u userId)[i]? = some { t with read := true }) := by
  have hne := isValidObjectId_ne_empty userId hval
  refine ⟨?_, ?_, ?_, ?_, markThreadReadFirst_frame u userId db.threads,
    markThreadReadFirst_sets_first u userId db.threads⟩
  · cases hh : (pageOf sanitizeFn u userId db page limit).head? with
    | none => simp [threadByUser, hne, hval, hh]
    | some r =>
      by_cases hu : (r.userTo == u) = true
      · simp [threadByUser, hne, hval, hh, hu]
      · have hub : (r.userTo == u) = false := by simpa using hu
        simp [threadByUser, hne, hval, hh, hub]
  · intro recent hh hu
    have hub : (recent.userTo == u) = true := by simp [hu]
    simp [threadByUser, hne, hval, hh, hub]
  · intro recent hh hu
    have hub : (recent.userTo == u) = false := by simp [hu]
    simp [threadByUser, hne, hval, hh, hub]
  · intro hnil
    simp [threadByUser, hne, hval, hnil]

/-- Witness for threadByUser_read_marking: B sent A the latest message,
the Thread is stored B-to-A and unread; A opens page 1 and the Thread
becomes read. -/
theorem threadByUser_read_marking_witness :
    isValidObjectId uidB = true
    ∧ (pageOf (fun c => c) uidA uidB dbC4w 1 10).head? = some msgBA1
    ∧ msgBA1.userTo = uidA
    ∧ (threadByUser (fun c => c) (some uidA) uidB dbC4w 1 10).2
        = { dbC4w with threads := markThreadReadFirst dbC4w.threads uidA uidB }
    ∧ (markThreadReadFirst dbC4w.threads uidA uidB)[0]?
        = some { threadBAunread with read := true } := by
  have h := threadByUser_read_marking (fun c => c) uidA uidB dbC4w 1 10 (by decide)
  refine ⟨by decide, by decide, rfl, h.2.1 msgBA1 (by decide) rfl, ?_⟩
  exact h.2.2.2.2.2 0 threadBAunread rfl rfl rfl
    (fun j s hj _ => absurd hj (Nat.not_lt_zero j))

/-- C4 is false as stated: A retrieves page 3 (limit 1) of the
conversation with B; the most recent message of that page is addressed
to A, yet the Thread document between the two users (stored A-to-B,
tracking the conversation's overall latest message) does not end with
read = true — the single-orientation update matches no document. -/
theorem threadByUser_read_marking_cex :
    (threadByUser (fun c => c) (some uidA) uidB dbC4cex 3 1).1
      = ThreadStep.next [msgBAold]
    ∧ msgBAold.userTo = uidA
    ∧ (threadByUser (fun c => c) (some uidA) uidB dbC4cex 3 1).2.threads.map Thread.read
        = [false] := by
  refine ⟨by decide, rfl, by decide⟩

theorem stripTagsAux_no_lt (l : List Char) :
    ∀ b, ∀ c ∈ stripTagsAux b l, c ≠ '<' := by
  induction l with
  | nil =>
    intro b c hc
    cases b <;> simp [stripTagsAux] at hc
  | cons x xs ih =>
    intro b c hc
    cases b with
    | true =>
      simp only [stripTagsAux] at hc
      split at hc
      · exact ih false c hc
      · exact ih true c hc
    | false =>
      simp only [stripTagsAux] at hc
      split at hc
      · exact ih true c hc
      · rename_i hx
        rcases List.mem_cons.mp hc with h1 | h2
        · subst h1
          exact hx
        · exact ih false c h2

theorem collapseWsAux_mem (l : List Char) :
    ∀ b, ∀ c ∈ collapseWsAux b l, c = ' ' ∨ c ∈ l := by
  induction l with
  | nil =>
    intro b c hc
    simp [collapseWsAux] at hc
  | cons x xs ih =>
    intro b c hc
    simp only [collapseWsAux] at hc
    split at hc
    · split at hc
      · rcases ih true c hc with h | h
        · exact Or.inl h
        · exact Or.inr (List.mem_cons_of_mem x h)
      · rcases List.mem_cons.mp hc with h1 | h2
        · exact Or.inl h1
        · rcases ih true c h2 with h | h
          · exact Or.inl h
          · exact Or.inr (List.mem_cons_of_mem x h)
    · rcases List.mem_cons.mp hc with h1 | h2
      · exact Or.inr (by simp [h1])
      · rcases ih false c h2 with h | h
        · exact Or.inl h
        · exact Or.inr (List.mem_cons_of_mem x h)

theorem plainTextChars_no_lt (l : List Char) :
    ∀ c ∈ plainTextChars l, c ≠ '<' := by
  intro c hc
  rcases collapseWsAux_mem (stripTagsAux false l) false c hc with h | h
  · subst h
    decide
  · exact stripTagsAux_no_lt l false c h

theorem excerptOf_no_lt (s : String) : ∀ c ∈ (excerptOf s).data, c ≠ '<' := by
  intro c hc
  have hc2 : c ∈ (plainTextChars s.data).take 100 ++ [' ', '…'] := hc
  rcases List.mem_append.mp hc2 with h | h
  · exact plainTextChars_no_lt s.data c (List.take_subset 100 _ h)
  · simp only [List.mem_cons, List.not_mem_nil, or_false] at h
    rcases h with h | h <;> subst h <;> decide

theorem excerptOf_length (s : String) : (excerptOf s).length ≤ 102 := by
  show ((plainTextChars s.data).take 100 ++ [' ', '…']).length ≤ 102
  rw [List.length_append]
  have h := List.length_take_le 100 (plainTextChars s.data)
  simp only [List.length_cons, List.length_nil]
  omega

/-- C2 (amended): every thread summary produced by the inbox operation
has an excerpt of at most 102 characters — up to 100 characters of
plain text plus the two-character " …" suffix (space and ellipsis) —
the excerpt contains no markup (no tag-opening character), and the raw
content field is removed from the summary. -/
theorem inbox_summary_excerpt_ok (u : String) (threads : List PopulatedThread) :
    ∀ s ∈ inbox u threads,
      s.excerpt.length ≤ 102 ∧ (∀ c ∈ s.excerpt.data, c ≠ '<') ∧ s.content? = none := by
  intro s hs
  rcases List.mem_map.mp hs with ⟨t, _, rfl⟩
  exact ⟨excerptOf_length t.content, excerptOf_no_lt t.content, rfl⟩

/-- Witness for inbox_summary_excerpt_ok: the summary of a thread whose
latest message is "<b>Hi</b>" has excerpt "Hi …", bounded length, and
no content field (the spec's own worked example). -/
theorem inbox_summary_excerpt_ok_witness :
    inboxSummary uidA ptHi ∈ inbox uidA [ptHi]
    ∧ (inboxSummary uidA ptHi).excerpt.length ≤ 102
    ∧ (inboxSummary uidA ptHi).content? = none
    ∧ (inboxSummary uidA ptHi).excerpt = "Hi …" := by
  have h := inbox_summary_excerpt_ok uidA [ptHi] (inboxSummary uidA ptHi)
    (by simp [inbox])
  exact ⟨by simp [inbox], h.1, h.2.2, by decide⟩

/-- C2 is false as stated: a thread whose latest message has 105 plain
characters yields an inbox excerpt of length 102 (100 characters plus
the two-character " …" suffix), exceeding the claimed bound of 101. -/
theorem inbox_summary_excerpt_cex :
    (inbox uidA [ptLong]).map (fun s => s.excerpt.length) = [102]
    ∧ ¬ (102 ≤ 101) := by
  refine ⟨by decide, by decide⟩
